import Mathlib

/-!
Verification of the SpotBotGPT Flask backend (src/app.py) against its
natural-language specification.  The Python source is shallowly embedded:
each route handler or helper becomes an executable Lean function over
explicit state, with the outbound Spotify client modelled as an oracle
function supplied as a parameter, and the exceptions raised by the Python
code modelled as `Except` / explicit error fields.  Time instants are
integers (epoch seconds); Python truthiness of optional strings/lists is
modelled explicitly.  String operations are defined on the underlying
character lists so that they evaluate by kernel reduction.
-/

/-- Python truthiness of an optional string (`if artist:`): `None` and the
empty string are falsy. -/
def pyTruthy (o : Option String) : Bool :=
  match o with
  | none => false
  | some s => s ≠ ""

/-- Python `s.startswith(pre)`, on character lists. -/
def pyStartsWith (s pre : String) : Bool :=
  pre.data.isPrefixOf s.data

/-- Python `s.split()[-1]`: the last whitespace-separated token of `s`
(`split()` with no argument drops leading/trailing whitespace and empty
runs, and `[-1]` takes the last token).  Empty when `s` has no token,
a case the program never reaches on the branch where this is used. -/
def lastWsToken (s : String) : String :=
  String.mk (((s.data.reverse.dropWhile (fun c => c.isWhitespace)).takeWhile
    (fun c => !c.isWhitespace)).reverse)

/-- Outcome of running a route through the auth decorator: either the
short-circuit 401 JSON error, or the wrapped handler's value. -/
inductive GateResult (α : Type) where
  | unauthorized (status : Nat) (error : String)
  | handled (value : α)
deriving DecidableEq

/-- Embedding of `require_auth` (src/app.py lines 66-74).  The wrapped
handler is passed as a value: `handled handler` means the handler ran
unmodified.  `header = none` models an absent Authorization header
(`request.headers.get("Authorization", "")` then yields `""`). -/
def require_auth {α : Type} (apiToken : String) (header : Option String)
    (handler : α) : GateResult α :=
  let auth := header.getD ""
  let token := if pyStartsWith auth "Bearer " then lastWsToken auth else auth
  if token ≠ apiToken then GateResult.unauthorized 401 "No autorizado"
  else GateResult.handled handler

/-- The bearer credential as the spec describes it: the substring after
the last whitespace token when the header begins with "Bearer ", the
entire header value verbatim otherwise, and the empty string when the
header is absent. -/
def specCredential (header : Option String) : String :=
  match header with
  | none => ""
  | some auth => if pyStartsWith auth "Bearer " then lastWsToken auth else auth

/-- C1: the auth gate extracts the credential as the last
whitespace-separated token when the header starts with "Bearer ", and the
verbatim header otherwise (empty when absent); it returns 401 with an
error body on any mismatch (including an absent header, given the
configured token is non-empty, which startup enforces), and runs the
wrapped handler unmodified on an exact match. -/
theorem C1_auth_gate (apiToken : String) (hapi : apiToken ≠ "")
    (header : Option String) (α : Type) (handler : α) :
    (specCredential header = apiToken →
      require_auth apiToken header handler = GateResult.handled handler) ∧
    (specCredential header ≠ apiToken →
      require_auth apiToken header handler = GateResult.unauthorized 401 "No autorizado") ∧
    (header = none →
      require_auth apiToken header handler = GateResult.unauthorized 401 "No autorizado") := by
  have hcred : specCredential header =
      (if pyStartsWith (header.getD "") "Bearer " then lastWsToken (header.getD "")
        else header.getD "") := by
    cases header with
    | none => simp [specCredential, pyStartsWith, lastWsToken]
    | some auth => rfl
  have hdef : require_auth apiToken header handler =
      if specCredential header ≠ apiToken then GateResult.unauthorized 401 "No autorizado"
      else GateResult.handled handler := by
    rw [hcred]
    rfl
  refine ⟨fun h => ?_, fun h => ?_, fun h => ?_⟩
  · rw [hdef, if_neg (by simpa using h)]
  · rw [hdef, if_pos h]
  · subst h
    rw [hdef, if_pos (fun hc => hapi hc.symm)]

/-- Witness for C1 at concrete inputs: a matching Bearer credential is let
through, and an absent header is rejected with 401. -/
theorem C1_auth_gate_witness :
    require_auth "tok" (some "Bearer tok") (0 : Nat) = GateResult.handled 0 ∧
    require_auth "tok" (none : Option String) (0 : Nat) =
      GateResult.unauthorized 401 "No autorizado" := by
  constructor
  · exact (C1_auth_gate "tok" (by decide) (some "Bearer tok") Nat 0).1 (by decide)
  · exact (C1_auth_gate "tok" (by decide) none Nat 0).2.2 rfl

/-- The spotipy client, identified by the access token it was built with
(`spotipy.Spotify(auth=access_token)`). -/
structure SpotifyClient where
  auth : String
deriving DecidableEq

/-- The process-wide token state of src/app.py: the globals `access_token`,
`expires_at` and the client `sp`. -/
structure TokenState where
  access_token : String
  expires_at : Int
  sp : SpotifyClient
deriving DecidableEq

/-- Result of a call to `ensure_token`: the state of the globals
afterwards, how many times `refresh_access_token` was invoked, and the
exception propagated out of the call, if any (on an exception the global
assignments never execute). -/
structure EnsureOutcome where
  state : TokenState
  refreshCalls : Nat
  raised : Option String
deriving DecidableEq

/-- Embedding of `ensure_token` (src/app.py lines 58-63).  `now` is
`datetime.now().timestamp()`; `refresh` is the outcome of the (at most
one) call to `refresh_access_token()`: either the returned
`(access_token, expires_at)` pair or the exception it raises. -/
def ensure_token (now : Int) (st : TokenState)
    (refresh : Except String (String × Int)) : EnsureOutcome :=
  if now ≥ st.expires_at then
    match refresh with
    | Except.error e => ⟨st, 1, some e⟩
    | Except.ok (tok, exp) => ⟨⟨tok, exp, ⟨tok⟩⟩, 1, none⟩
  else ⟨st, 0, none⟩

/-- C2: when `now < expires_at`, `ensure_token` makes no refresh call and
leaves the access token, expiry and client untouched; when
`now ≥ expires_at`, it makes exactly one refresh call, stores the returned
pair, and rebuilds the client from the new access token. -/
theorem C2_ensure_token (now : Int) (st : TokenState) (tok : String) (exp : Int) :
    (now < st.expires_at → ensure_token now st (Except.ok (tok, exp)) = ⟨st, 0, none⟩) ∧
    (now ≥ st.expires_at →
      ensure_token now st (Except.ok (tok, exp)) = ⟨⟨tok, exp, ⟨tok⟩⟩, 1, none⟩) := by
  constructor
  · intro h
    simp [ensure_token, not_le.mpr h]
  · intro h
    simp [ensure_token, h]

/-- Witness for C2: a still-valid token is kept as is; an expired one is
replaced by the refreshed pair with a rebuilt client. -/
theorem C2_ensure_token_witness :
    ensure_token 5 ⟨"old", 10, ⟨"old"⟩⟩ (Except.ok ("new", 90)) = ⟨⟨"old", 10, ⟨"old"⟩⟩, 0, none⟩ ∧
    ensure_token 10 ⟨"old", 10, ⟨"old"⟩⟩ (Except.ok ("new", 90)) = ⟨⟨"new", 90, ⟨"new"⟩⟩, 1, none⟩ := by
  constructor
  · exact (C2_ensure_token 5 ⟨"old", 10, ⟨"old"⟩⟩ "new" 90).1 (by decide)
  · exact (C2_ensure_token 10 ⟨"old", 10, ⟨"old"⟩⟩ "new" 90).2 (by decide)

/-- C6: when the refresh call raises, the stored token state — access
token, expiry and client — is exactly what it was before the attempt. -/
theorem C6_refresh_failure_atomicity (now : Int) (st : TokenState) (e : String) :
    (ensure_token now st (Except.error e)).state = st := by
  unfold ensure_token
  split
  · rfl
  · rfl

/-- Response of GET /validate_token: the global state afterwards, the
number of refresh calls, and the `token_expired` field of the JSON body. -/
structure ValidateOutcome where
  state : TokenState
  refreshCalls : Nat
  token_expired : Bool
deriving DecidableEq

/-- Embedding of the `/debug` handler body (src/app.py lines 99-109): it
calls `ensure_token()` first, then reports
`token_expired = datetime.now().timestamp() > expires_at` against the
(possibly refreshed) expiry.  The second component is the `token_expired`
field, `none` when `ensure_token` raised (the exception escapes the
handler). -/
def debug (now : Int) (st : TokenState)
    (refresh : Except String (String × Int)) : EnsureOutcome × Option Bool :=
  let o := ensure_token now st refresh
  match o.raised with
  | some _ => (o, none)
  | none => (o, some (decide (now > o.state.expires_at)))

/-- Embedding of the `/validate_token` handler (src/app.py lines 111-118):
`expired = now > expires_at`; if expired it refreshes and resets
`expired = False`; the body reports the final `expired`.  `none` when the
refresh raised. -/
def validate_token (now : Int) (st : TokenState)
    (refresh : Except String (String × Int)) : Option ValidateOutcome :=
  let expired := decide (now > st.expires_at)
  if expired then
    let o := ensure_token now st refresh
    match o.raised with
    | some _ => none
    | none => some ⟨o.state, o.refreshCalls, false⟩
  else some ⟨st, 0, expired⟩

/-- Counterexample to C7: at `now = expires_at` exactly, `ensure_token`
classifies the token as expired (one refresh call), but `/validate_token`
classifies it as NOT expired: it makes no refresh call and reports
`token_expired = false`, and `/debug` likewise reports
`token_expired = false`.  The comparison is not applied uniformly. -/
theorem C7_counterexample :
    (ensure_token 100 ⟨"old", 100, ⟨"old"⟩⟩ (Except.ok ("new", 200))).refreshCalls = 1 ∧
    validate_token 100 ⟨"old", 100, ⟨"old"⟩⟩ (Except.ok ("new", 200)) =
      some ⟨⟨"old", 100, ⟨"old"⟩⟩, 0, false⟩ ∧
    (debug 100 ⟨"old", 100, ⟨"old"⟩⟩ (Except.ok ("new", 200))).2 = some false := by
  refine ⟨by decide, by decide, by decide⟩

/-- C7 amended: `ensure_token` treats the token as expired when
`now ≥ expires_at`, while `/debug`'s `token_expired` field and
`/validate_token` use the strict comparison `now > expires_at`; all
agree that the token is valid strictly before its expiry instant, but at
`now = expires_at` exactly `ensure_token` refreshes whereas
`/validate_token` reports the token as not expired without refreshing. -/
theorem C7_amended (st : TokenState) (tok : String) (exp now : Int) :
    (now < st.expires_at →
      ensure_token now st (Except.ok (tok, exp)) = ⟨st, 0, none⟩ ∧
      validate_token now st (Except.ok (tok, exp)) = some ⟨st, 0, false⟩ ∧
      debug now st (Except.ok (tok, exp)) = (⟨st, 0, none⟩, some false)) ∧
    (now ≥ st.expires_at →
      (ensure_token now st (Except.ok (tok, exp))).refreshCalls = 1) ∧
    (now = st.expires_at →
      validate_token now st (Except.ok (tok, exp)) = some ⟨st, 0, false⟩) ∧
    (now > st.expires_at →
      validate_token now st (Except.ok (tok, exp)) =
        some ⟨⟨tok, exp, ⟨tok⟩⟩, 1, false⟩) := by
  refine ⟨fun h => ?_, fun h => ?_, fun h => ?_, fun h => ?_⟩
  · have hne : ¬ now ≥ st.expires_at := not_le.mpr h
    have hns : ¬ now > st.expires_at := not_lt.mpr (le_of_lt h)
    refine ⟨by simp [ensure_token, hne], ?_, ?_⟩
    · simp [validate_token, hns]
    · simp [debug, ensure_token, hne, hns]
  · simp [ensure_token, h]
  · have hns : ¬ now > st.expires_at := by omega
    simp [validate_token, hns]
  · simp [validate_token, h, ensure_token, le_of_lt h]

/-- Witness for C7 amended at concrete instants strictly before, exactly
at, and strictly after the expiry instant. -/
theorem C7_amended_witness :
    (ensure_token 99 ⟨"old", 100, ⟨"old"⟩⟩ (Except.ok ("new", 200)) =
      ⟨⟨"old", 100, ⟨"old"⟩⟩, 0, none⟩) ∧
    (validate_token 101 ⟨"old", 100, ⟨"old"⟩⟩ (Except.ok ("new", 200)) =
      some ⟨⟨"new", 200, ⟨"new"⟩⟩, 1, false⟩) := by
  constructor
  · exact ((C7_amended ⟨"old", 100, ⟨"old"⟩⟩ "new" 200 99).1 (by decide)).1
  · exact (C7_amended ⟨"old", 100, ⟨"old"⟩⟩ "new" 200 101).2.2.2 (by decide)

/-- A call to `sp.search(q=..., type=..., limit=...)`. -/
structure SearchQuery where
  q : String
  qtype : String
  limit : Nat
deriving DecidableEq

/-- The query string built by `track_search_to_uris` for one name:
`track:"<name>"`, extended with ` artist:"<artist>"` when the artist
argument is truthy (`if artist:`). -/
def searchQueryString (name : String) (artist : Option String) : String :=
  let q := "track:\"" ++ name ++ "\""
  if pyTruthy artist then q ++ " artist:\"" ++ artist.getD "" ++ "\"" else q

/-- The `ValueError` message raised when a name yields no search result. -/
def notFoundMsg (name : String) (artist : Option String) : String :=
  "No se encontró \x27" ++ name ++ "\x27" ++
    (if pyTruthy artist then " de " ++ artist.getD "" else "")

/-- Embedding of `track_search_to_uris` (src/app.py lines 80-92).  The
Spotify client's `search` is an oracle mapping a query to the list of the
URIs of `res["tracks"]["items"]`.  Returns the list of queries issued (in
order) and either the collected first-result URIs or the raised
`ValueError` message. -/
def track_search_to_uris (search : SearchQuery → List String)
    (track_names : List String) (artist : Option String) :
    List SearchQuery × Except String (List String) :=
  match track_names with
  | [] => ([], Except.ok [])
  | name :: rest =>
    let qy : SearchQuery := ⟨searchQueryString name artist, "track", 1⟩
    match search qy with
    | [] => ([qy], Except.error (notFoundMsg name artist))
    | uri :: _ =>
      let r := track_search_to_uris search rest artist
      (qy :: r.1, Except.map (fun us => uri :: us) r.2)

/-- Observable outcome of POST /playlists/(id)/tracks/from-names: HTTP
status, error body, the search queries issued, the `playlist_add_items`
calls made, and the `added_tracks` field of a success body. -/
structure AddByNameOutcome where
  status : Nat
  error : Option String
  queries : List SearchQuery
  addItemsCalls : List (String × List String)
  added : Option (List String)
deriving DecidableEq

/-- Embedding of `add_tracks_by_name` (src/app.py lines 442-456).
`track_names = none` models an absent body field; `if not names` also
rejects the empty list.  `ensure` is the outcome of `ensure_token()`
(its token-state effect is immaterial to this route's observables). -/
def add_tracks_by_name (search : SearchQuery → List String)
    (ensure : Except String Unit) (playlist_id : String)
    (track_names : Option (List String)) (artist_name : Option String) :
    AddByNameOutcome :=
  let names := track_names.getD []
  if names = [] then ⟨400, some "track_names obligatorio", [], [], none⟩
  else
    match ensure with
    | Except.error e => ⟨500, some e, [], [], none⟩
    | Except.ok _ =>
      let r := track_search_to_uris search names artist_name
      match r.2 with
      | Except.error msg => ⟨500, some msg, r.1, [], none⟩
      | Except.ok uris => ⟨200, none, r.1, [(playlist_id, uris)], some names⟩

/-- When every name's query has a non-empty result, the resolver issues
exactly the per-name queries in input order and returns the first URIs in
input order. -/
theorem tstu_all_found (search : SearchQuery → List String)
    (names : List String) (artist : Option String)
    (h : ∀ n ∈ names, search ⟨searchQueryString n artist, "track", 1⟩ ≠ []) :
    track_search_to_uris search names artist =
      (names.map (fun n => ⟨searchQueryString n artist, "track", 1⟩),
       Except.ok (names.map
         (fun n => (search ⟨searchQueryString n artist, "track", 1⟩).headD ""))) := by
  induction names with
  | nil => simp [track_search_to_uris]
  | cons n rest ih =>
    have hn := h n (List.mem_cons_self n rest)
    obtain ⟨u, us, hu⟩ : ∃ u us,
        search ⟨searchQueryString n artist, "track", 1⟩ = u :: us := by
      cases hcase : search ⟨searchQueryString n artist, "track", 1⟩ with
      | nil => exact absurd hcase hn
      | cons u us => exact ⟨u, us, rfl⟩
    have ih2 := ih (fun m hm => h m (List.mem_cons_of_mem _ hm))
    simp [track_search_to_uris, hu, ih2, Except.map]

/-- When some name's query has an empty result, the resolver raises the
not-found `ValueError` for such a name. -/
theorem tstu_first_missing (search : SearchQuery → List String)
    (names : List String) (artist : Option String)
    (h : ∃ n ∈ names, search ⟨searchQueryString n artist, "track", 1⟩ = []) :
    ∃ n ∈ names, search ⟨searchQueryString n artist, "track", 1⟩ = [] ∧
      (track_search_to_uris search names artist).2 =
        Except.error (notFoundMsg n artist) := by
  induction names with
  | nil => simp at h
  | cons m rest ih =>
    by_cases hm : search ⟨searchQueryString m artist, "track", 1⟩ = []
    · exact ⟨m, List.mem_cons_self m rest, hm, by simp [track_search_to_uris, hm]⟩
    · obtain ⟨n, hn, hne⟩ := h
      rcases List.mem_cons.mp hn with rfl | hn2
      · exact absurd hne hm
      · obtain ⟨n2, hn2m, hn2e, hres⟩ := ih ⟨n, hn2, hne⟩
        refine ⟨n2, List.mem_cons_of_mem _ hn2m, hn2e, ?_⟩
        obtain ⟨u, us, hu⟩ : ∃ u us,
            search ⟨searchQueryString m artist, "track", 1⟩ = u :: us := by
          cases hcase : search ⟨searchQueryString m artist, "track", 1⟩ with
          | nil => exact absurd hcase hm
          | cons u us => exact ⟨u, us, rfl⟩
        simp [track_search_to_uris, hu, hres, Except.map]

/-- C5: the resolver issues exactly one search query per name, in input
order, of the form track:"(name)" without an artist and
track:"(name)" artist:"(artist)" with one, each with type "track" and
limit 1, and when every name yields at least one result it returns the
first-result URIs in input order. -/
theorem C5_name_resolution (search : SearchQuery → List String)
    (names : List String) (artist : Option String)
    (h : ∀ n ∈ names, search ⟨searchQueryString n artist, "track", 1⟩ ≠ []) :
    (artist = none →
      (track_search_to_uris search names artist).1 =
        names.map (fun n => ⟨"track:\"" ++ n ++ "\"", "track", 1⟩)) ∧
    (∀ a : String, artist = some a → a ≠ "" →
      (track_search_to_uris search names artist).1 =
        names.map (fun n =>
          ⟨"track:\"" ++ n ++ "\"" ++ " artist:\"" ++ a ++ "\"", "track", 1⟩)) ∧
    (track_search_to_uris search names artist).2 =
      Except.ok (names.map
        (fun n => (search ⟨searchQueryString n artist, "track", 1⟩).headD "")) := by
  have key := tstu_all_found search names artist h
  refine ⟨?_, ?_, ?_⟩
  · intro ha
    subst ha
    rw [key]
    simp [searchQueryString, pyTruthy]
  · intro a ha hne
    subst ha
    rw [key]
    simp [searchQueryString, pyTruthy, hne]
  · rw [key]

/-- Witness for C5: two names, no artist, an oracle that always returns
one result; the two queries are issued in order and both URIs returned. -/
theorem C5_name_resolution_witness :
    (track_search_to_uris (fun _ => ["spotify:track:1"]) ["a", "b"] none).1 =
      [⟨"track:\"a\"", "track", 1⟩, ⟨"track:\"b\"", "track", 1⟩] ∧
    (track_search_to_uris (fun _ => ["spotify:track:1"]) ["a", "b"] none).2 =
      Except.ok ["spotify:track:1", "spotify:track:1"] := by
  have h := C5_name_resolution (fun _ => ["spotify:track:1"]) ["a", "b"] none (by decide)
  exact ⟨by simpa using h.1 rfl, by simpa using h.2.2⟩

/-- C4: if any submitted name's search yields zero results, the
from-names route fails (500 with the not-found ValueError message of a
missing name), `playlist_add_items` is never called, and no success body
is produced — no partial success. -/
theorem C4_batch_all_or_nothing (search : SearchQuery → List String)
    (pid : String) (names : List String) (artist : Option String)
    (hne : names ≠ [])
    (h : ∃ n ∈ names, search ⟨searchQueryString n artist, "track", 1⟩ = []) :
    (add_tracks_by_name search (Except.ok ()) pid (some names) artist).status = 500 ∧
    (add_tracks_by_name search (Except.ok ()) pid (some names) artist).addItemsCalls = [] ∧
    (add_tracks_by_name search (Except.ok ()) pid (some names) artist).added = none ∧
    ∃ n ∈ names, search ⟨searchQueryString n artist, "track", 1⟩ = [] ∧
      (add_tracks_by_name search (Except.ok ()) pid (some names) artist).error =
        some (notFoundMsg n artist) := by
  obtain ⟨n, hn, hne2, hres⟩ := tstu_first_missing search names artist h
  refine ⟨?_, ?_, ?_, ⟨n, hn, hne2, ?_⟩⟩ <;>
    simp [add_tracks_by_name, hne, hres]

/-- Witness for C4: names ["A", "B"] where only "A" resolves; the route
returns 500 and never calls playlist_add_items. -/
theorem C4_batch_all_or_nothing_witness :
    (add_tracks_by_name
      (fun qy => if qy.q = "track:\"A\"" then ["spotify:track:A"] else [])
      (Except.ok ()) "pl1" (some ["A", "B"]) none).status = 500 ∧
    (add_tracks_by_name
      (fun qy => if qy.q = "track:\"A\"" then ["spotify:track:A"] else [])
      (Except.ok ()) "pl1" (some ["A", "B"]) none).addItemsCalls = [] := by
  have h := C4_batch_all_or_nothing
    (fun qy => if qy.q = "track:\"A\"" then ["spotify:track:A"] else [])
    "pl1" ["A", "B"] none (by decide) (by decide)
  exact ⟨h.1, h.2.1⟩

/-- C10: a request body whose track_names is the empty list is rejected
with 400 exactly like an absent field, with no search query and no
playlist_add_items call. -/
theorem C10_empty_track_names (search : SearchQuery → List String)
    (ensure : Except String Unit) (pid : String) (artist : Option String) :
    add_tracks_by_name search ensure pid (some []) artist =
      ⟨400, some "track_names obligatorio", [], [], none⟩ ∧
    add_tracks_by_name search ensure pid (some []) artist =
      add_tracks_by_name search ensure pid none artist := by
  exact ⟨rfl, rfl⟩

/-- A registered Flask route: path, methods, and whether the handler is
wrapped by the `require_auth` decorator in src/app.py. -/
structure Route where
  path : String
  methods : List String
  requiresAuth : Bool
deriving DecidableEq

/-- The full route table of src/app.py, in registration order: every
`@app.route` with a flag recording the presence of `@require_auth`.  The
only handler without the decorator is `home` at line 95. -/
def routeTable : List Route := [
  ⟨"/", ["GET"], false⟩,
  ⟨"/debug", ["GET"], true⟩,
  ⟨"/validate_token", ["GET"], true⟩,
  ⟨"/get_song_lyric", ["GET"], true⟩,
  ⟨"/me/top/<item_type>", ["GET"], true⟩,
  ⟨"/me/player/recently-played", ["GET"], true⟩,
  ⟨"/me/tracks", ["GET", "PUT", "DELETE"], true⟩,
  ⟨"/me/albums", ["GET", "PUT", "DELETE"], true⟩,
  ⟨"/user/profile", ["GET"], true⟩,
  ⟨"/user/top_artists", ["GET"], true⟩,
  ⟨"/user/top_tracks", ["GET"], true⟩,
  ⟨"/user/recently_played", ["GET"], true⟩,
  ⟨"/user/followed_artists", ["GET"], true⟩,
  ⟨"/library/saved_tracks", ["GET"], true⟩,
  ⟨"/library/saved_albums", ["GET"], true⟩,
  ⟨"/search", ["GET"], true⟩,
  ⟨"/recommendations", ["GET"], true⟩,
  ⟨"/artists/<artist_id>", ["GET"], true⟩,
  ⟨"/artists/<artist_id>/top-tracks", ["GET"], true⟩,
  ⟨"/audio-features/<track_id>", ["GET"], true⟩,
  ⟨"/audio-analysis/<track_id>", ["GET"], true⟩,
  ⟨"/me/playlists", ["GET"], true⟩,
  ⟨"/users/<user_id>/playlists", ["POST"], true⟩,
  ⟨"/playlists/<playlist_id>", ["GET", "PUT"], true⟩,
  ⟨"/playlists/<playlist_id>/tracks", ["GET", "POST", "DELETE", "PUT"], true⟩,
  ⟨"/playlists/<playlist_id>/followers", ["PUT", "DELETE"], true⟩,
  ⟨"/playlists/<playlist_id>/tracks/from-names", ["POST"], true⟩,
  ⟨"/me/following", ["GET", "PUT", "DELETE"], true⟩,
  ⟨"/get_user_playlists", ["GET"], true⟩,
  ⟨"/create_playlist", ["POST"], true⟩,
  ⟨"/playlists/<playlist_id>", ["PATCH"], true⟩,
  ⟨"/playlists/<playlist_id>/remove_tracks", ["DELETE"], true⟩,
  ⟨"/playlists/<playlist_id>/reorder_tracks", ["POST"], true⟩,
  ⟨"/add_tracks_to_playlist", ["POST"], true⟩]

/-- Dispatching a request to a registered route: routes carrying the
decorator go through `require_auth`; the one without it runs its handler
directly. -/
def dispatch {α : Type} (apiToken : String) (r : Route) (header : Option String)
    (handler : α) : GateResult α :=
  if r.requiresAuth then require_auth apiToken header handler
  else GateResult.handled handler

/-- Counterexample to C3: the route table contains GET / without the auth
decorator, and a request to it with no Authorization header at all still
runs the handler (the liveness text is served), instead of returning
unauthorized. -/
theorem C3_counterexample :
    (⟨"/", ["GET"], false⟩ : Route) ∈ routeTable ∧
    dispatch "secret-token" (⟨"/", ["GET"], false⟩ : Route) none "✅ Servidor activo." =
      GateResult.handled "✅ Servidor activo." := by
  exact ⟨List.Mem.head _, rfl⟩

/-- C3 amended: every route except the liveness route GET / carries the
auth gate, and for every gated route a request whose extracted credential
differs from the configured token is answered 401 and its handler never
runs. -/
theorem C3_amended :
    (∀ r ∈ routeTable, r.path ≠ "/" → r.requiresAuth = true) ∧
    (∀ (r : Route) (apiToken : String) (header : Option String) (α : Type) (handler : α),
      r.requiresAuth = true →
      (if pyStartsWith (header.getD "") "Bearer " then lastWsToken (header.getD "")
        else header.getD "") ≠ apiToken →
      dispatch apiToken r header handler = GateResult.unauthorized 401 "No autorizado") := by
  constructor
  · decide
  · intro r apiToken header α handler hr hcred
    simp only [dispatch, hr, if_true]
    have hdef : require_auth apiToken header handler =
        if (if pyStartsWith (header.getD "") "Bearer " then lastWsToken (header.getD "")
          else header.getD "") ≠ apiToken
        then GateResult.unauthorized 401 "No autorizado"
        else GateResult.handled handler := rfl
    rw [hdef, if_pos hcred]

/-- Witness for C3 amended: the gated /debug route rejects a request with
no Authorization header. -/
theorem C3_amended_witness :
    dispatch "secret" (⟨"/debug", ["GET"], true⟩ : Route) none (0 : Nat) =
      GateResult.unauthorized 401 "No autorizado" := by
  exact C3_amended.2 ⟨"/debug", ["GET"], true⟩ "secret" none Nat 0 rfl (by decide)

/-- One outbound call made by the legacy POST /create_playlist handler,
tagged with the access token of the client that issues it. -/
inductive UpstreamCall where
  | me (auth : String)
  | refreshTok
  | createPlaylist (auth : String) (user : String) (name : String)
deriving DecidableEq

/-- Observable outcome of the legacy POST /create_playlist route. -/
structure CreatePlaylistOutcome where
  status : Nat
  calls : List UpstreamCall
  state : TokenState
deriving DecidableEq

/-- Embedding of `alias_create_playlist` (src/app.py lines 498-520).  The
handler validates `playlist_name`, then calls `sp.me()["id"]` on the
CURRENT client, then `ensure_token()` (modelled with a successful refresh
pair, as the claim concerns the ordering, and a refresh exception would
escape before any further call), then `sp.user_playlist_create` on the
client current after `ensure_token`. -/
def alias_create_playlist (now : Int) (st : TokenState) (refresh : String × Int)
    (meId : String) (playlist_name : Option String) : CreatePlaylistOutcome :=
  if pyTruthy playlist_name then
    let meCall := UpstreamCall.me st.sp.auth
    let o := ensure_token now st (Except.ok refresh)
    let refreshCalls := if o.refreshCalls = 1 then [UpstreamCall.refreshTok] else []
    ⟨201, meCall :: refreshCalls ++
      [UpstreamCall.createPlaylist o.state.sp.auth meId (playlist_name.getD "")],
      o.state⟩
  else ⟨400, [], st⟩

/-- C9: on legacy POST /create_playlist arriving with an already expired
token, the current-user lookup is issued BEFORE the expiry check, hence
with the old (expired) access token, and only the subsequent
playlist-creation call uses the refreshed token. -/
theorem C9_me_before_refresh (now : Int) (st : TokenState) (tok : String)
    (exp : Int) (meId nm : String)
    (hinv : st.sp.auth = st.access_token) (hnm : nm ≠ "")
    (hexp : now ≥ st.expires_at) :
    alias_create_playlist now st (tok, exp) meId (some nm) =
      ⟨201, [UpstreamCall.me st.access_token, UpstreamCall.refreshTok,
             UpstreamCall.createPlaylist tok meId nm],
        ⟨tok, exp, ⟨tok⟩⟩⟩ := by
  simp [alias_create_playlist, pyTruthy, hnm, ensure_token, hexp, hinv]

/-- Witness for C9: a concrete request at the expiry instant. -/
theorem C9_me_before_refresh_witness :
    alias_create_playlist 100 ⟨"old", 100, ⟨"old"⟩⟩ ("new", 200) "u1" (some "Mix") =
      ⟨201, [UpstreamCall.me "old", UpstreamCall.refreshTok,
             UpstreamCall.createPlaylist "new" "u1" "Mix"],
        ⟨"new", 200, ⟨"new"⟩⟩⟩ := by
  exact C9_me_before_refresh 100 ⟨"old", 100, ⟨"old"⟩⟩ "new" 200 "u1" "Mix"
    rfl (by decide) (by decide)

/-- Python whitespace stripping of both ends, on the character list. -/
def pyStripWs (s : String) : List Char :=
  ((s.data.dropWhile (fun c => c.isWhitespace)).reverse.dropWhile
    (fun c => c.isWhitespace)).reverse

/-- Decimal value of a digit list. -/
def digitsVal (l : List Char) : Nat :=
  l.foldl (fun acc c => acc * 10 + (c.toNat - 48)) 0

/-- Model of Python `int()` on a decimal string: optional surrounding
whitespace, optional sign, then a non-empty run of digits; anything else
raises ValueError, modelled as `none` (digit-group underscores elided). -/
def pyInt (s : String) : Option Int :=
  let t := pyStripWs s
  let signed :=
    match t with
    | '-' :: rest => (true, rest)
    | '+' :: rest => (false, rest)
    | _ => (false, t)
  if signed.2 ≠ [] ∧ signed.2.all (fun c => c.isDigit) then
    some (if signed.1 then -(digitsVal signed.2 : Int) else (digitsVal signed.2 : Int))
  else none

/-- `int(request.args.get(key, default))`: an absent parameter falls back
to the integer default (no parsing); a present one is parsed by `int()`,
`none` meaning the ValueError raised on a malformed value. -/
def parseArg (v : Option String) (default : Int) : Option Int :=
  match v with
  | none => some default
  | some s => pyInt s

/-- Observable outcome of a listing route: HTTP status and the
limit/offset actually forwarded to the Spotify client. -/
structure ListingOutcome where
  status : Nat
  upstreamLimit : Option Int
  upstreamOffset : Option Int
deriving DecidableEq

/-- Embedding of `get_top_items` (src/app.py lines 145-160): item_type
validation, then inside `try:` the limit/offset parsing (defaults 20/0)
and the upstream call; a ValueError from `int()` is caught by the generic
`except` and answered 500.  `ensure_token` and the upstream data are
elided: they do not affect status or forwarded parameters for this
claim. -/
def get_top_items (item_type : String) (limit offset : Option String) :
    ListingOutcome :=
  if item_type = "artists" ∨ item_type = "tracks" then
    match parseArg limit 20, parseArg offset 0 with
    | some l, some o => ⟨200, some l, some o⟩
    | _, _ => ⟨500, none, none⟩
  else ⟨400, none, none⟩

/-- Embedding of the GET branch of `playlist_tracks` (src/app.py lines
382-390): defaults 100/0, parsing inside `try:`, ValueError answered 500
by the generic `except`. -/
def playlist_tracks (limit offset : Option String) : ListingOutcome :=
  match parseArg limit 100, parseArg offset 0 with
  | some l, some o => ⟨200, some l, some o⟩
  | _, _ => ⟨500, none, none⟩

/-- Embedding of `alias_followed_artists` (src/app.py lines 243-254): the
`int()` of limit (default 20) runs BEFORE the `try:` block, so a
malformed value raises an uncaught ValueError, which Flask answers with a
500 Internal Server Error; the route takes no offset parameter. -/
def alias_followed_artists (limit : Option String) : ListingOutcome :=
  match parseArg limit 20 with
  | some l => ⟨200, some l, none⟩
  | none => ⟨500, none, none⟩

/-- Counterexample to C8: a malformed limit value is answered 500 — not a
400-class response — on every one of the cited listing routes. -/
theorem C8_counterexample :
    (get_top_items "artists" (some "abc") none).status = 500 ∧
    ¬(400 ≤ (get_top_items "artists" (some "abc") none).status ∧
      (get_top_items "artists" (some "abc") none).status < 500) ∧
    (playlist_tracks (some "abc") none).status = 500 ∧
    (alias_followed_artists (some "abc")).status = 500 := by
  decide

/-- C8 amended: absent limit/offset fall back to the documented defaults
(20/0 for /me/top and followed artists, 100/0 for GET playlist tracks),
present values are parsed as integers and forwarded, but a malformed
value yields a 500 response (generic exception handler, or an uncaught
ValueError on /user/followed_artists), not a 400-class one. -/
theorem C8_amended (s : String) (k : Int) :
    get_top_items "artists" none none = ⟨200, some 20, some 0⟩ ∧
    get_top_items "tracks" none none = ⟨200, some 20, some 0⟩ ∧
    playlist_tracks none none = ⟨200, some 100, some 0⟩ ∧
    alias_followed_artists none = ⟨200, some 20, none⟩ ∧
    (pyInt s = some k →
      get_top_items "artists" (some s) none = ⟨200, some k, some 0⟩ ∧
      playlist_tracks none (some s) = ⟨200, some 100, some k⟩ ∧
      alias_followed_artists (some s) = ⟨200, some k, none⟩) ∧
    (pyInt s = none →
      (get_top_items "artists" (some s) none).status = 500 ∧
      (playlist_tracks (some s) none).status = 500 ∧
      (alias_followed_artists (some s)).status = 500) := by
  refine ⟨by decide, by decide, by decide, by decide, fun h => ?_, fun h => ?_⟩
  · refine ⟨?_, ?_, ?_⟩ <;>
      simp [get_top_items, playlist_tracks, alias_followed_artists, parseArg, h]
  · refine ⟨?_, ?_, ?_⟩ <;>
      simp [get_top_items, playlist_tracks, alias_followed_artists, parseArg, h]

/-- Witness for C8 amended: limit "7" parses and is forwarded; limit
"xyz" is malformed and answered 500. -/
theorem C8_amended_witness :
    get_top_items "artists" (some "7") none = ⟨200, some 7, some 0⟩ ∧
    (alias_followed_artists (some "xyz")).status = 500 := by
  constructor
  · exact ((C8_amended "7" 7).2.2.2.2.1 (by decide)).1
  · exact ((C8_amended "xyz" 0).2.2.2.2.2 (by decide)).2.2
